import Mathlib

/-!
Verification of the ray-tracing core of the repository (src/main.rs,
src/material.rs, src/ray_intersect.rs).

Floating-point (f32) values are embedded as real numbers; `powf` becomes
`Real.rpow`, `powi` becomes natural-number power, `sqrt` becomes `Real.sqrt`.

The repository modules cube.rs, color.rs and camera.rs are not part of the
provided sources; the cube intersection routine is therefore kept abstract
(a universally quantified function of type `RayIntersectFn`), while `Color`
and `Camera` are modelled from the spec (see the doc comments below).
-/

namespace Raytracer

/-- Three-component vector of reals, embedding the nalgebra_glm `Vec3` of f32. -/
structure Vec3 where
  x : ℝ
  y : ℝ
  z : ℝ

instance : Add Vec3 := ⟨fun a b => ⟨a.x + b.x, a.y + b.y, a.z + b.z⟩⟩

instance : Sub Vec3 := ⟨fun a b => ⟨a.x - b.x, a.y - b.y, a.z - b.z⟩⟩

instance : Neg Vec3 := ⟨fun a => ⟨-a.x, -a.y, -a.z⟩⟩

/-- Scaling a vector by a scalar (`v * s` on f32 vectors). -/
def Vec3.smul (v : Vec3) (s : ℝ) : Vec3 := ⟨v.x * s, v.y * s, v.z * s⟩

/-- Dot product. -/
def Vec3.dot (a b : Vec3) : ℝ := a.x * b.x + a.y * b.y + a.z * b.z

/-- Euclidean magnitude. -/
noncomputable def Vec3.magnitude (v : Vec3) : ℝ := Real.sqrt (Vec3.dot v v)

/-- Method `normalize`: divide each component by the magnitude.  (On the zero
vector real division by zero yields the zero vector; no claim exercises
that case.) -/
noncomputable def Vec3.normalize (v : Vec3) : Vec3 :=
  ⟨v.x / v.magnitude, v.y / v.magnitude, v.z / v.magnitude⟩

/-- Modelled from the spec: color.rs is not under src/.  "Color — packed
RGB value with saturating arithmetic"; "r,g,b ∈ [0,255]", "arithmetic ops
clamp to range".  Channels are bytes, embedded as `Fin 256`. -/
structure Color where
  red : Fin 256
  green : Fin 256
  blue : Fin 256
deriving DecidableEq

/-- Constructor `Color::new(r, g, b)`. -/
def Color.new (r g b : Fin 256) : Color := ⟨r, g, b⟩

/-- Constant `Color::black()`. -/
def Color.black : Color := ⟨0, 0, 0⟩

/-- Saturating byte addition: clamps the sum at 255 (spec: "arithmetic ops
clamp to range"). -/
def satAdd (a b : Fin 256) : Fin 256 :=
  ⟨min (a.val + b.val) 255, by omega⟩

instance : Add Color :=
  ⟨fun a b => ⟨satAdd a.red b.red, satAdd a.green b.green, satAdd a.blue b.blue⟩⟩

/-- The Rust `as u8` cast from f32: saturates to [0, 255] and truncates
toward zero (all casts in the shading path are applied to non-negative
values, where truncation is the floor). -/
noncomputable def asU8 (v : ℝ) : Fin 256 :=
  ⟨min (max ⌊v⌋ 0).toNat 255, by omega⟩

/-- Modelled from the spec: color.rs is not under src/.  `Color * f32`
scales each channel and clamps back to byte range. -/
noncomputable def Color.scale (c : Color) (s : ℝ) : Color :=
  ⟨asU8 ((c.red.val : ℝ) * s), asU8 ((c.green.val : ℝ) * s), asU8 ((c.blue.val : ℝ) * s)⟩

/-- src/material.rs: per-surface shading parameters. -/
structure Material where
  diffuse : Color
  specular : ℝ
  albedo : Fin 4 → ℝ
  refractive_index : ℝ
  emission : Color
  is_emissive : Bool

/-- Constructor `Material::black()`. -/
def Material.black : Material :=
  { diffuse := Color.new 0 0 0
    specular := 0
    albedo := fun _ => 0
    refractive_index := 0
    emission := Color.black
    is_emissive := false }

/-- src/ray_intersect.rs: hit record. -/
structure Intersect where
  point : Vec3
  normal : Vec3
  distance : ℝ
  material : Material
  is_intersecting : Bool

/-- Constructor `Intersect::empty()`. -/
def Intersect.empty : Intersect :=
  { point := ⟨0, 0, 0⟩
    normal := ⟨0, 0, 0⟩
    distance := 0
    material := Material.black
    is_intersecting := false }

/-- Axis-aligned cube (fields as used from main.rs; cube.rs itself is not
under src/). -/
structure Cube where
  center : Vec3
  size : ℝ
  material : Material

/-- main.rs: `enum Object { Cube(Cube, bool) }`. -/
inductive Object where
  | cube (c : Cube) (isLight : Bool)

/-- The cube `ray_intersect` method lives in cube.rs, which is not under
src/; every theorem quantifies over it. -/
def RayIntersectFn := Cube → Vec3 → Vec3 → Intersect

/-- Intersection result of one scene object (main.rs matches the object
with a wildcard on the boolean flag). -/
def objHit (ri : RayIntersectFn) (origin dir : Vec3) (o : Object) : Intersect :=
  match o with
  | .cube c _ => ri c origin dir

/-- The cube carried by an object, forgetting the is-light flag. -/
def objCube (o : Object) : Cube :=
  match o with
  | .cube c _ => c

/-- main.rs: `const ORIGIN_BIAS: f32 = 1e-4`. -/
noncomputable def ORIGIN_BIAS : ℝ := 1e-4

/-- main.rs: `const SKYBOX_COLOR: Color = Color::new(68, 142, 228)`. -/
def SKYBOX_COLOR : Color := Color.new 68 142 228

/-- main.rs `offset_origin`: displace the hit point along the normal by
`ORIGIN_BIAS`, away from or toward the ray direction. -/
noncomputable def offset_origin (intersect : Intersect) (direction : Vec3) : Vec3 :=
  let offset := intersect.normal.smul ORIGIN_BIAS
  if Vec3.dot direction intersect.normal < 0 then
    intersect.point - offset
  else
    intersect.point + offset

/-- main.rs `reflect`: `incident - 2 * incident.dot(normal) * normal`. -/
noncomputable def reflect (incident normal : Vec3) : Vec3 :=
  incident - normal.smul (2 * Vec3.dot incident normal)

/-- main.rs `fresnel` (the Schlick approximation); `powi` is integer power. -/
noncomputable def fresnel (cos_theta refractive_index : ℝ) : ℝ :=
  let r0 := ((1 - refractive_index) / (1 + refractive_index)) ^ (2 : ℕ)
  r0 + (1 - r0) * (1 - cos_theta) ^ (5 : ℕ)

/-- The shadow attenuation formula applied to the first occluder in
cast_shadow: `1.0 - distance_ratio.powf(2.0).min(1.0)`.  `powf` is real
power (`Real.rpow`). -/
noncomputable def shadowIntensityFormula (r : ℝ) : ℝ :=
  1 - min (r ^ (2 : ℝ)) 1

/-- Value `light_dir` computed at the top of main.rs `cast_shadow`. -/
noncomputable def shadowLightDir (intersect : Intersect) (light_position : Vec3) : Vec3 :=
  (light_position - intersect.point).normalize

/-- Value `light_distance` computed at the top of main.rs `cast_shadow`. -/
noncomputable def shadowLightDistance (intersect : Intersect) (light_position : Vec3) : ℝ :=
  (light_position - intersect.point).magnitude

/-- Value `shadow_ray_origin` computed in main.rs `cast_shadow`. -/
noncomputable def shadowRayOrigin (intersect : Intersect) (light_position : Vec3) : Vec3 :=
  offset_origin intersect (shadowLightDir intersect light_position)

/-- The `for object in objects` loop of main.rs `cast_shadow`:
`shadow_intensity` starts at 0 and the loop breaks on the first object
whose intersection is closer than the light. -/
noncomputable def shadowScan (ri : RayIntersectFn) (origin dir : Vec3)
    (light_distance : ℝ) : List Object → ℝ
  | [] => 0
  | o :: rest =>
    let shadow_intersect := objHit ri origin dir o
    if shadow_intersect.is_intersecting = true ∧
        shadow_intersect.distance < light_distance then
      shadowIntensityFormula (shadow_intersect.distance / light_distance)
    else
      shadowScan ri origin dir light_distance rest

/-- main.rs `cast_shadow`. -/
noncomputable def cast_shadow (ri : RayIntersectFn) (intersect : Intersect)
    (light_position : Vec3) (objects : List Object) : ℝ :=
  shadowScan ri (shadowRayOrigin intersect light_position)
    (shadowLightDir intersect light_position)
    (shadowLightDistance intersect light_position) objects

/-- main.rs `interpolate_color`: per-channel linear interpolation with the
result cast back to u8. -/
noncomputable def interpolate_color (color1 color2 : Color) (factor : ℝ) : Color :=
  Color.new
    (asU8 ((color1.red.val : ℝ) * (1 - factor) + (color2.red.val : ℝ) * factor))
    (asU8 ((color1.green.val : ℝ) * (1 - factor) + (color2.green.val : ℝ) * factor))
    (asU8 ((color1.blue.val : ℝ) * (1 - factor) + (color2.blue.val : ℝ) * factor))

/-- main.rs `calculate_light_intensity`. -/
noncomputable def calculate_light_intensity (light_position : Vec3) : ℝ :=
  let max_intensity : ℝ := 1
  let min_intensity : ℝ := 0.2
  let light_height_factor := max (light_position.y + 1) 0 / 10
  min_intensity + (max_intensity - min_intensity) * min (max light_height_factor 0) 1

/-- main.rs `skybox_color`: blend of ground and sky colors, each
interpolated between a night and a day palette by the light intensity. -/
noncomputable def skybox_color (ray_direction : Vec3) (light_intensity : ℝ) : Color :=
  let t := 0.5 * (ray_direction.y + 1)
  let sky_color_day := Color.new 135 206 235
  let ground_color_day := Color.new 222 184 135
  let sky_color_night := Color.new 25 25 112
  let ground_color_night := Color.new 50 50 50
  let sky_color := interpolate_color sky_color_night sky_color_day light_intensity
  let ground_color := interpolate_color ground_color_night ground_color_day light_intensity
  Color.new
    (asU8 ((1 - t) * (ground_color.red.val : ℝ) + t * (sky_color.red.val : ℝ)))
    (asU8 ((1 - t) * (ground_color.green.val : ℝ) + t * (sky_color.green.val : ℝ)))
    (asU8 ((1 - t) * (ground_color.blue.val : ℝ) + t * (sky_color.blue.val : ℝ)))

/-- Value `cos_theta` as computed in the light loop of main.rs `cast_ray`:
`-ray_direction.dot(&intersect.normal).max(0.0)`.  By Rust precedence the
method calls bind before the unary minus, so this is the NEGATION of
`max(dot, 0)`. -/
noncomputable def castRayCosTheta (ray_direction normal : Vec3) : ℝ :=
  -(max (Vec3.dot ray_direction normal) 0)

/-- The `distance < zbuffer` test of the nearest-hit scan; the f32
`INFINITY` initial value of `zbuffer` is modelled by `none`. -/
def ltZbuffer (d : ℝ) : Option ℝ → Prop
  | none => True
  | some z => d < z

noncomputable instance (d : ℝ) : (zb : Option ℝ) → Decidable (ltZbuffer d zb)
  | none => inferInstanceAs (Decidable True)
  | some z => inferInstanceAs (Decidable (d < z))

/-- The `for object in objects` nearest-hit loop of main.rs `cast_ray`:
keep the running intersection whenever a hit is strictly closer than the
z-buffer. -/
noncomputable def sceneScan (ri : RayIntersectFn) (origin dir : Vec3) :
    List Object → Intersect → Option ℝ → Intersect
  | [], intersect, _ => intersect
  | o :: rest, intersect, zbuffer =>
    let i := objHit ri origin dir o
    if i.is_intersecting = true ∧ ltZbuffer i.distance zbuffer then
      sceneScan ri origin dir rest i (some i.distance)
    else
      sceneScan ri origin dir rest intersect zbuffer

/-- One iteration of the `for light_position in light_positions` loop of
main.rs `cast_ray`, updating the (total_diffuse, total_specular)
accumulator. -/
noncomputable def lightStep (ri : RayIntersectFn) (ray_origin ray_direction : Vec3)
    (intersect : Intersect) (objects : List Object)
    (acc : Color × Color) (light_position : Vec3) : Color × Color :=
  let light_dir := (light_position - intersect.point).normalize
  let view_dir := (ray_origin - intersect.point).normalize
  let reflect_dir := (reflect (-light_dir) intersect.normal).normalize
  let shadow_intensity := cast_shadow ri intersect light_position objects
  let light_intensity := 1.5 * (1 - shadow_intensity)
  let cos_theta := castRayCosTheta ray_direction intersect.normal
  let fresnel_effect := fresnel cos_theta intersect.material.refractive_index
  let diffuse_intensity := min (max (Vec3.dot intersect.normal light_dir) 0) 1
  let specular_intensity :=
    (max (Vec3.dot view_dir reflect_dir) 0) ^ intersect.material.specular
  (acc.1 +
    ((intersect.material.diffuse.scale (intersect.material.albedo 0)).scale
      diffuse_intensity).scale light_intensity,
   acc.2 +
    (((((Color.new 255 255 255).scale (intersect.material.albedo 1)).scale
      specular_intensity).scale light_intensity).scale fresnel_effect))

/-- The whole light loop of main.rs `cast_ray`: both accumulators start at
`Color::black()`. -/
noncomputable def lightLoop (ri : RayIntersectFn) (ray_origin ray_direction : Vec3)
    (intersect : Intersect) (objects : List Object)
    (light_positions : List Vec3) : Color × Color :=
  light_positions.foldl (lightStep ri ray_origin ray_direction intersect objects)
    (Color.black, Color.black)

/-- The shading performed by main.rs `cast_ray` on the selected
intersection: per-light accumulation, then emission added once. -/
noncomputable def castRayShade (ri : RayIntersectFn) (ray_origin ray_direction : Vec3)
    (objects : List Object) (light_positions : List Vec3)
    (intersect : Intersect) : Color :=
  let totals := lightLoop ri ray_origin ray_direction intersect objects light_positions
  let emission :=
    if intersect.material.is_emissive = true then intersect.material.emission
    else Color.black
  totals.1 + totals.2 + emission

/-- The body of main.rs `cast_ray` after the depth guard: nearest-hit
scan, skybox on a miss, shading on a hit. -/
noncomputable def castRayBody (ri : RayIntersectFn) (ray_origin ray_direction : Vec3)
    (objects : List Object) (light_positions : List Vec3)
    (light_intensity : ℝ) : Color :=
  let intersect := sceneScan ri ray_origin ray_direction objects Intersect.empty none
  if intersect.is_intersecting = false then
    skybox_color ray_direction light_intensity
  else
    castRayShade ri ray_origin ray_direction objects light_positions intersect

/-- main.rs `cast_ray`. -/
noncomputable def cast_ray (ri : RayIntersectFn) (ray_origin ray_direction : Vec3)
    (objects : List Object) (light_positions : List Vec3)
    (depth : ℕ) (light_intensity : ℝ) : Color :=
  if depth > 3 then SKYBOX_COLOR
  else castRayBody ri ray_origin ray_direction objects light_positions light_intensity

/-- Cross product, needed by the spec-modelled camera basis. -/
noncomputable def Vec3.cross (a b : Vec3) : Vec3 :=
  ⟨a.y * b.z - a.z * b.y, a.z * b.x - a.x * b.z, a.x * b.y - a.y * b.x⟩

/-- Modelled from the spec: camera.rs is not under src/.  "Camera — eye
position, target, up vector". -/
structure Camera where
  eye : Vec3
  center : Vec3
  up : Vec3

/-- Modelled from the spec: camera.rs is not under src/.  "base_change
maps a camera-local ray direction into world space using the camera
orthonormal basis (forward = normalize(center−eye), right =
normalize(forward × up), recomputed up = right × forward)"; the
camera-space direction (sx, sy, −1) looks along forward. -/
noncomputable def Camera.base_change (cam : Camera) (d : Vec3) : Vec3 :=
  let forward := (cam.center - cam.eye).normalize
  let right := (Vec3.cross forward cam.up).normalize
  let up2 := Vec3.cross right forward
  right.smul d.x + up2.smul d.y - forward.smul d.z

/-- The world-space ray direction main.rs `render` builds for pixel
(x, y): normalized device coordinates scaled by aspect ratio and
`tan(fov/2)` with `fov = π/3`, put through the camera basis. -/
noncomputable def renderDirection (width height : ℕ) (camera : Camera)
    (x y : ℕ) : Vec3 :=
  let w : ℝ := width
  let h : ℝ := height
  let aspect := w / h
  let fov := Real.pi / 3
  let perspective_scale := Real.tan (fov * 0.5)
  let screen_x := 2 * (x : ℝ) / w - 1
  let screen_y := -(2 * (y : ℝ)) / h + 1
  let screen_x2 := screen_x * aspect * perspective_scale
  let screen_y2 := screen_y * perspective_scale
  camera.base_change (Vec3.normalize ⟨screen_x2, screen_y2, -1⟩)

/-- main.rs `render` as the color it writes for pixel (x, y): the
framebuffer write itself is I/O and out of scope. -/
noncomputable def render (ri : RayIntersectFn) (width height : ℕ) (camera : Camera)
    (objects : List Object) (light_positions : List Vec3)
    (light_intensity : ℝ) (x y : ℕ) : Color :=
  cast_ray ri camera.eye (renderDirection width height camera x y)
    objects light_positions 0 light_intensity

/-! ### Helper lemmas -/

lemma asU8_zero : asU8 0 = 0 := by
  apply Fin.ext
  simp [asU8]

lemma asU8_natCast_val (n : ℕ) (h : n ≤ 255) : (asU8 (n : ℝ)).val = n := by
  simp [asU8]
  omega

lemma Color.scale_zero (c : Color) : c.scale 0 = Color.black := by
  simp [Color.scale, Color.black, mul_zero, asU8_zero]

lemma Color.black_scale (s : ℝ) : Color.black.scale s = Color.black := by
  simp [Color.scale, Color.black, asU8_zero]

lemma satAdd_zero (a : Fin 256) : satAdd a 0 = a := by
  apply Fin.ext
  have := a.isLt
  simp [satAdd]
  omega

lemma satAdd_zero_left (a : Fin 256) : satAdd 0 a = a := by
  apply Fin.ext
  have := a.isLt
  simp [satAdd]
  omega

lemma Color.add_black (c : Color) : c + Color.black = c := by
  show Color.mk _ _ _ = c
  simp [Color.black, satAdd_zero]

lemma Color.black_add (c : Color) : Color.black + c = c := by
  show Color.mk _ _ _ = c
  simp [Color.black, satAdd_zero_left]

lemma Vec3.sub_def (a b : Vec3) : a - b = ⟨a.x - b.x, a.y - b.y, a.z - b.z⟩ := rfl

lemma Vec3.add_def (a b : Vec3) : a + b = ⟨a.x + b.x, a.y + b.y, a.z + b.z⟩ := rfl

lemma Vec3.neg_def (a : Vec3) : -a = ⟨-a.x, -a.y, -a.z⟩ := rfl

/-- The hit record the shadow ray of `cast_shadow` obtains for one scene
object. -/
noncomputable def shadowObjHit (ri : RayIntersectFn) (intersect : Intersect)
    (light_position : Vec3) (o : Object) : Intersect :=
  objHit ri (shadowRayOrigin intersect light_position)
    (shadowLightDir intersect light_position) o

/-- The occluder test of `cast_shadow` for one scene object: it intersects
the shadow ray strictly nearer than the light. -/
noncomputable def shadowCond (ri : RayIntersectFn) (intersect : Intersect)
    (light_position : Vec3) (o : Object) : Prop :=
  (shadowObjHit ri intersect light_position o).is_intersecting = true ∧
  (shadowObjHit ri intersect light_position o).distance <
    shadowLightDistance intersect light_position

lemma shadowIntensityFormula_bounds (r : ℝ) :
    0 ≤ shadowIntensityFormula r ∧ shadowIntensityFormula r ≤ 1 := by
  rw [shadowIntensityFormula, Real.rpow_two]
  have h0 : 0 ≤ min (r ^ 2) 1 := le_min (sq_nonneg r) zero_le_one
  have h1 : min (r ^ 2) 1 ≤ 1 := min_le_right _ _
  constructor <;> linarith

lemma shadowScan_bounds (ri : RayIntersectFn) (origin dir : Vec3) (Ld : ℝ) :
    ∀ l : List Object, 0 ≤ shadowScan ri origin dir Ld l ∧
      shadowScan ri origin dir Ld l ≤ 1 := by
  intro l
  induction l with
  | nil => simp [shadowScan]
  | cons a l ih =>
    rw [shadowScan]
    by_cases h : (objHit ri origin dir a).is_intersecting = true ∧
        (objHit ri origin dir a).distance < Ld
    · rw [if_pos h]
      exact shadowIntensityFormula_bounds _
    · rw [if_neg h]
      exact ih

lemma shadowScan_all_miss (ri : RayIntersectFn) (origin dir : Vec3) (Ld : ℝ) :
    ∀ l : List Object,
      (∀ o ∈ l, ¬ ((objHit ri origin dir o).is_intersecting = true ∧
        (objHit ri origin dir o).distance < Ld)) →
      shadowScan ri origin dir Ld l = 0 := by
  intro l
  induction l with
  | nil => intro _; rw [shadowScan]
  | cons a l ih =>
    intro h
    rw [shadowScan, if_neg (h a (List.mem_cons_self a l))]
    exact ih fun o ho => h o (List.mem_cons_of_mem a ho)

lemma shadowScan_first (ri : RayIntersectFn) (origin dir : Vec3) (Ld : ℝ)
    (o : Object) (post : List Object)
    (ho : (objHit ri origin dir o).is_intersecting = true ∧
      (objHit ri origin dir o).distance < Ld) :
    ∀ pre : List Object,
      (∀ o' ∈ pre, ¬ ((objHit ri origin dir o').is_intersecting = true ∧
        (objHit ri origin dir o').distance < Ld)) →
      shadowScan ri origin dir Ld (pre ++ o :: post) =
        shadowIntensityFormula ((objHit ri origin dir o).distance / Ld) := by
  intro pre
  induction pre with
  | nil => intro _; rw [List.nil_append, shadowScan, if_pos ho]
  | cons a pre ih =>
    intro h
    rw [List.cons_append, shadowScan, if_neg (h a (List.mem_cons_self a pre))]
    exact ih fun o' ho' => h o' (List.mem_cons_of_mem a ho')

/-! ### C2: shadow scan keeps the first occluder -/

/-- C2: `cast_shadow` returns `1 − min(1, (occluder_distance/light_distance)²)`
for the first object in list order that occludes (independent of every
object after it), and returns exactly 0 when no object in the list
occludes. -/
theorem cast_shadow_first_occluder (ri : RayIntersectFn) (intersect : Intersect)
    (L : Vec3) :
    (∀ (pre : List Object) (o : Object) (post : List Object),
      (∀ o' ∈ pre, ¬ shadowCond ri intersect L o') →
      shadowCond ri intersect L o →
      cast_shadow ri intersect L (pre ++ o :: post) =
        1 - min 1 (((shadowObjHit ri intersect L o).distance /
          shadowLightDistance intersect L) ^ (2 : ℝ))) ∧
    (∀ objs : List Object, (∀ o' ∈ objs, ¬ shadowCond ri intersect L o') →
      cast_shadow ri intersect L objs = 0) := by
  constructor
  · intro pre o post hpre ho
    rw [cast_shadow, shadowScan_first ri _ _ _ o post ho pre hpre,
      shadowIntensityFormula, min_comm]
    rfl
  · intro objs hmiss
    rw [cast_shadow, shadowScan_all_miss ri _ _ _ objs hmiss]

/-- Witness for C2 at a concrete input: one occluder at distance 3 with
the light at distance 5 yields `1 − min(1, (3/5)²)`. -/
theorem cast_shadow_first_occluder_witness :
    cast_shadow (fun _ _ _ => ⟨⟨0, 0, 0⟩, ⟨0, 0, 0⟩, 3, Material.black, true⟩)
        ⟨⟨0, 0, 0⟩, ⟨0, 1, 0⟩, 0, Material.black, true⟩ ⟨0, 5, 0⟩
        [Object.cube ⟨⟨0, 0, 0⟩, 1, Material.black⟩ false] =
      1 - min 1 (((3 : ℝ) / 5) ^ (2 : ℝ)) := by
  have hL : shadowLightDistance
      ⟨⟨0, 0, 0⟩, ⟨0, 1, 0⟩, 0, Material.black, true⟩ (⟨0, 5, 0⟩ : Vec3) = 5 := by
    have h1 : Vec3.dot ⟨0 - 0, 5 - 0, 0 - 0⟩ ⟨0 - 0, 5 - 0, 0 - 0⟩ = 5 ^ 2 := by
      norm_num [Vec3.dot]
    rw [shadowLightDistance, Vec3.sub_def, Vec3.magnitude, h1,
      Real.sqrt_sq (by norm_num : (0:ℝ) ≤ 5)]
  have hcond : shadowCond
      (fun _ _ _ => ⟨⟨0, 0, 0⟩, ⟨0, 0, 0⟩, 3, Material.black, true⟩)
      ⟨⟨0, 0, 0⟩, ⟨0, 1, 0⟩, 0, Material.black, true⟩ ⟨0, 5, 0⟩
      (Object.cube ⟨⟨0, 0, 0⟩, 1, Material.black⟩ false) := by
    refine ⟨rfl, ?_⟩
    rw [hL]
    norm_num [shadowObjHit, objHit]
  have h := (cast_shadow_first_occluder
      (fun _ _ _ => ⟨⟨0, 0, 0⟩, ⟨0, 0, 0⟩, 3, Material.black, true⟩)
      ⟨⟨0, 0, 0⟩, ⟨0, 1, 0⟩, 0, Material.black, true⟩ ⟨0, 5, 0⟩).1
      [] (Object.cube ⟨⟨0, 0, 0⟩, 1, Material.black⟩ false) []
      (by simp) hcond
  rw [List.nil_append] at h
  rw [h, hL]
  norm_num [shadowObjHit, objHit]

/-! ### C8: shadow intensity range and monotonicity -/

/-- C8: `cast_shadow` always returns a value in [0, 1]; the occluder
formula is monotonically non-increasing in the distance ratio; and the
result is exactly 0 when no object occludes. -/
theorem cast_shadow_range_monotone :
    (∀ (ri : RayIntersectFn) (i : Intersect) (L : Vec3) (objs : List Object),
      0 ≤ cast_shadow ri i L objs ∧ cast_shadow ri i L objs ≤ 1) ∧
    (∀ r1 r2 : ℝ, 0 ≤ r1 → r1 ≤ r2 →
      shadowIntensityFormula r2 ≤ shadowIntensityFormula r1) ∧
    (∀ (ri : RayIntersectFn) (i : Intersect) (L : Vec3) (objs : List Object),
      (∀ o ∈ objs, ¬ shadowCond ri i L o) → cast_shadow ri i L objs = 0) := by
  refine ⟨fun ri i L objs => ?_, fun r1 r2 h0 h12 => ?_,
    fun ri i L objs h => by rw [cast_shadow, shadowScan_all_miss ri _ _ _ objs h]⟩
  · rw [cast_shadow]
    exact shadowScan_bounds _ _ _ _ objs
  · rw [shadowIntensityFormula, shadowIntensityFormula, Real.rpow_two,
      Real.rpow_two]
    have hsq : r1 ^ 2 ≤ r2 ^ 2 := pow_le_pow_left₀ h0 h12 2
    have := min_le_min hsq (le_refl (1 : ℝ))
    linarith

/-- Witness for C8 at concrete inputs: the formula is non-increasing from
ratio 1/2 to ratio 1, and an empty object list casts no shadow. -/
theorem cast_shadow_range_monotone_witness :
    shadowIntensityFormula 1 ≤ shadowIntensityFormula (1 / 2) ∧
    cast_shadow (fun _ _ _ => Intersect.empty)
      ⟨⟨0, 0, 0⟩, ⟨0, 1, 0⟩, 0, Material.black, true⟩ ⟨0, 5, 0⟩ [] = 0 :=
  ⟨cast_shadow_range_monotone.2.1 (1 / 2) 1 (by norm_num) (by norm_num),
   cast_shadow_range_monotone.2.2 _ _ _ [] (by simp)⟩

lemma ltZbuffer_of_lt {a b : ℝ} (h : a < b) {zb : Option ℝ}
    (hb : ltZbuffer b zb) : ltZbuffer a zb := by
  cases zb with
  | none => trivial
  | some z => exact lt_trans h hb

/-- Full characterization of the nearest-hit scan of `cast_ray`: either no
object qualifies against the z-buffer and the accumulator is returned, or
the result is the hit of the first object in list order attaining the
minimal qualifying distance. -/
lemma sceneScan_spec (ri : RayIntersectFn) (origin dir : Vec3) :
    ∀ (l : List Object) (acc : Intersect) (zb : Option ℝ),
      ((∀ o ∈ l, ¬ ((objHit ri origin dir o).is_intersecting = true ∧
          ltZbuffer (objHit ri origin dir o).distance zb)) ∧
        sceneScan ri origin dir l acc zb = acc) ∨
      (∃ pre o post, l = pre ++ o :: post ∧
        sceneScan ri origin dir l acc zb = objHit ri origin dir o ∧
        (objHit ri origin dir o).is_intersecting = true ∧
        ltZbuffer (objHit ri origin dir o).distance zb ∧
        (∀ k ∈ l, (objHit ri origin dir k).is_intersecting = true →
          ltZbuffer (objHit ri origin dir k).distance zb →
          (objHit ri origin dir o).distance ≤ (objHit ri origin dir k).distance) ∧
        (∀ k ∈ pre, (objHit ri origin dir k).is_intersecting = true →
          ltZbuffer (objHit ri origin dir k).distance zb →
          (objHit ri origin dir o).distance < (objHit ri origin dir k).distance)) := by
  intro l
  induction l with
  | nil =>
    intro acc zb
    exact Or.inl ⟨by simp, by rw [sceneScan]⟩
  | cons a t ih =>
    intro acc zb
    by_cases hca : (objHit ri origin dir a).is_intersecting = true ∧
        ltZbuffer (objHit ri origin dir a).distance zb
    · have hstep : sceneScan ri origin dir (a :: t) acc zb =
          sceneScan ri origin dir t (objHit ri origin dir a)
            (some (objHit ri origin dir a).distance) := by
        rw [sceneScan, if_pos hca]
      rcases ih (objHit ri origin dir a) (some (objHit ri origin dir a).distance)
        with ⟨hnone, heq⟩ | ⟨pre, o, post, hl, heq, hint, hltz, hmin, hstrict⟩
      · refine Or.inr ⟨[], a, t, by simp, by rw [hstep, heq], hca.1, hca.2,
          ?_, by simp⟩
        intro k hk hkint hkltz
        rcases List.mem_cons.mp hk with rfl | hkt
        · exact le_refl _
        · by_contra hcon
          push_neg at hcon
          exact hnone k hkt ⟨hkint, hcon⟩
      · refine Or.inr ⟨a :: pre, o, post, by rw [List.cons_append, hl],
          by rw [hstep, heq], hint,
          ltZbuffer_of_lt hltz hca.2, ?_, ?_⟩
        · intro k hk hkint hkltz
          rcases List.mem_cons.mp hk with rfl | hkt
          · exact le_of_lt hltz
          · by_cases hlt : (objHit ri origin dir k).distance <
                (objHit ri origin dir a).distance
            · exact hmin k hkt hkint hlt
            · push_neg at hlt
              exact le_trans (le_of_lt hltz) hlt
        · intro k hk hkint hkltz
          rcases List.mem_cons.mp hk with rfl | hkp
          · exact hltz
          · by_cases hlt : (objHit ri origin dir k).distance <
                (objHit ri origin dir a).distance
            · exact hstrict k hkp hkint hlt
            · push_neg at hlt
              exact lt_of_lt_of_le hltz hlt
    · have hstep : sceneScan ri origin dir (a :: t) acc zb =
          sceneScan ri origin dir t acc zb := by
        rw [sceneScan, if_neg hca]
      rcases ih acc zb
        with ⟨hnone, heq⟩ | ⟨pre, o, post, hl, heq, hint, hltz, hmin, hstrict⟩
      · refine Or.inl ⟨?_, by rw [hstep, heq]⟩
        intro o ho
        rcases List.mem_cons.mp ho with rfl | hot
        · exact hca
        · exact hnone o hot
      · refine Or.inr ⟨a :: pre, o, post, by rw [List.cons_append, hl],
          by rw [hstep, heq], hint, hltz, ?_, ?_⟩
        · intro k hk hkint hkltz
          rcases List.mem_cons.mp hk with rfl | hkt
          · exact absurd ⟨hkint, hkltz⟩ hca
          · exact hmin k hkt hkint hkltz
        · intro k hk hkint hkltz
          rcases List.mem_cons.mp hk with rfl | hkp
          · exact absurd ⟨hkint, hkltz⟩ hca
          · exact hstrict k hkp hkint hkltz

/-- If every object misses, the scan returns its accumulator unchanged. -/
lemma sceneScan_all_miss (ri : RayIntersectFn) (origin dir : Vec3) :
    ∀ (l : List Object), (∀ o ∈ l, (objHit ri origin dir o).is_intersecting = false) →
      ∀ (acc : Intersect) (zb : Option ℝ), sceneScan ri origin dir l acc zb = acc := by
  intro l
  induction l with
  | nil => intro _ acc zb; rw [sceneScan]
  | cons a t ih =>
    intro h acc zb
    have ha : ¬ ((objHit ri origin dir a).is_intersecting = true ∧
        ltZbuffer (objHit ri origin dir a).distance zb) := by
      intro hcon
      rw [h a (List.mem_cons_self a t)] at hcon
      exact absurd hcon.1 (by simp)
    rw [sceneScan, if_neg ha]
    exact ih (fun o ho => h o (List.mem_cons_of_mem a ho)) acc zb

/-! ### C3: nearest-hit selection -/

/-- C3: when some object intersects, the intersection `cast_ray` shades is
the hit of an object with minimal distance among all intersecting ones and
every intersecting object earlier in list order is strictly farther (so
the first object wins ties); when no object intersects and the depth guard
is not triggered, `cast_ray` returns the skybox gradient. -/
theorem cast_ray_nearest_hit (ri : RayIntersectFn) (origin dir : Vec3)
    (objs : List Object) :
    ((∃ o ∈ objs, (objHit ri origin dir o).is_intersecting = true) →
      ∃ pre o post, objs = pre ++ o :: post ∧
        sceneScan ri origin dir objs Intersect.empty none = objHit ri origin dir o ∧
        (objHit ri origin dir o).is_intersecting = true ∧
        (∀ k ∈ objs, (objHit ri origin dir k).is_intersecting = true →
          (objHit ri origin dir o).distance ≤ (objHit ri origin dir k).distance) ∧
        (∀ k ∈ pre, (objHit ri origin dir k).is_intersecting = true →
          (objHit ri origin dir o).distance < (objHit ri origin dir k).distance)) ∧
    ((∀ o ∈ objs, (objHit ri origin dir o).is_intersecting = false) →
      ∀ (lights : List Vec3) (depth : ℕ) (li : ℝ), depth ≤ 3 →
        cast_ray ri origin dir objs lights depth li = skybox_color dir li) := by
  constructor
  · intro ⟨w, hw, hwint⟩
    rcases sceneScan_spec ri origin dir objs Intersect.empty none
      with ⟨hnone, _⟩ | ⟨pre, o, post, hl, heq, hint, _, hmin, hstrict⟩
    · exact absurd ⟨hwint, trivial⟩ (hnone w hw)
    · exact ⟨pre, o, post, hl, heq, hint,
        fun k hk hkint => hmin k hk hkint trivial,
        fun k hk hkint => hstrict k hk hkint trivial⟩
  · intro hmiss lights depth li hdepth
    rw [cast_ray, if_neg (by omega), castRayBody,
      sceneScan_all_miss ri origin dir objs hmiss Intersect.empty none]
    rw [if_pos (show Intersect.empty.is_intersecting = false from rfl)]

/-- Witness for C3 at a concrete input: a single intersecting object is
selected and is trivially of minimal distance. -/
theorem cast_ray_nearest_hit_witness :
    ∃ pre o post,
      ([Object.cube ⟨⟨0, 0, 0⟩, 1, Material.black⟩ false] : List Object) =
        pre ++ o :: post ∧
      sceneScan (fun _ _ _ => ⟨⟨0, 0, 0⟩, ⟨0, 0, 0⟩, 3, Material.black, true⟩)
        ⟨0, 0, 0⟩ ⟨0, 0, 1⟩
        [Object.cube ⟨⟨0, 0, 0⟩, 1, Material.black⟩ false] Intersect.empty none =
        objHit (fun _ _ _ => ⟨⟨0, 0, 0⟩, ⟨0, 0, 0⟩, 3, Material.black, true⟩)
          ⟨0, 0, 0⟩ ⟨0, 0, 1⟩ o ∧
      (objHit (fun _ _ _ => ⟨⟨0, 0, 0⟩, ⟨0, 0, 0⟩, 3, Material.black, true⟩)
        ⟨0, 0, 0⟩ ⟨0, 0, 1⟩ o).is_intersecting = true ∧
      (∀ k ∈ ([Object.cube ⟨⟨0, 0, 0⟩, 1, Material.black⟩ false] : List Object),
        (objHit (fun _ _ _ => ⟨⟨0, 0, 0⟩, ⟨0, 0, 0⟩, 3, Material.black, true⟩)
          ⟨0, 0, 0⟩ ⟨0, 0, 1⟩ k).is_intersecting = true →
        (objHit (fun _ _ _ => ⟨⟨0, 0, 0⟩, ⟨0, 0, 0⟩, 3, Material.black, true⟩)
          ⟨0, 0, 0⟩ ⟨0, 0, 1⟩ o).distance ≤
          (objHit (fun _ _ _ => ⟨⟨0, 0, 0⟩, ⟨0, 0, 0⟩, 3, Material.black, true⟩)
            ⟨0, 0, 0⟩ ⟨0, 0, 1⟩ k).distance) ∧
      (∀ k ∈ pre,
        (objHit (fun _ _ _ => ⟨⟨0, 0, 0⟩, ⟨0, 0, 0⟩, 3, Material.black, true⟩)
          ⟨0, 0, 0⟩ ⟨0, 0, 1⟩ k).is_intersecting = true →
        (objHit (fun _ _ _ => ⟨⟨0, 0, 0⟩, ⟨0, 0, 0⟩, 3, Material.black, true⟩)
          ⟨0, 0, 0⟩ ⟨0, 0, 1⟩ o).distance <
          (objHit (fun _ _ _ => ⟨⟨0, 0, 0⟩, ⟨0, 0, 0⟩, 3, Material.black, true⟩)
            ⟨0, 0, 0⟩ ⟨0, 0, 1⟩ k).distance) :=
  (cast_ray_nearest_hit (fun _ _ _ => ⟨⟨0, 0, 0⟩, ⟨0, 0, 0⟩, 3, Material.black, true⟩)
    ⟨0, 0, 0⟩ ⟨0, 0, 1⟩ [Object.cube ⟨⟨0, 0, 0⟩, 1, Material.black⟩ false]).1
    ⟨Object.cube ⟨⟨0, 0, 0⟩, 1, Material.black⟩ false, List.mem_cons_self _ _, rfl⟩

/-! ### C6: ambient day/night light intensity -/

/-- C6: for every light position, `calculate_light_intensity` equals
`0.2 + (1 − 0.2) · clamp((y + 1)/10, 0, 1)` — the code's
`(y + 1).max(0.0) / 10` followed by `clamp(0, 1)` computes the same
value — and the result always lies in [0.2, 1]. -/
theorem calculate_light_intensity_spec (light_position : Vec3) :
    calculate_light_intensity light_position =
      0.2 + (1 - 0.2) * min (max ((light_position.y + 1) / 10) 0) 1 ∧
    0.2 ≤ calculate_light_intensity light_position ∧
    calculate_light_intensity light_position ≤ 1 := by
  have hform : calculate_light_intensity light_position =
      0.2 + (1 - 0.2) * min (max ((light_position.y + 1) / 10) 0) 1 := by
    simp only [calculate_light_intensity]
    have hdiv : max (light_position.y + 1) 0 / 10 =
        max ((light_position.y + 1) / 10) 0 := by
      rw [← max_div_div_right (by norm_num : (0:ℝ) ≤ 10)]
      norm_num
    rw [hdiv, max_eq_left (le_max_right _ _)]
  refine ⟨hform, ?_, ?_⟩ <;> rw [hform]
  · have h0 : 0 ≤ min (max ((light_position.y + 1) / 10) 0) 1 :=
      le_min (le_max_right _ _) zero_le_one
    nlinarith
  · have h1 : min (max ((light_position.y + 1) / 10) 0) 1 ≤ 1 := min_le_right _ _
    nlinarith

/-! ### C4: depth guard and renderer call depth -/

/-- C4: `cast_ray` with `depth > 3` returns the constant `SKYBOX_COLOR`
immediately for all inputs; `render` invokes `cast_ray` with `depth = 0`
for every pixel; and at depth 0 the guard branch is not taken (the call
proceeds to the body). -/
theorem cast_ray_depth_guard_render_depth_zero :
    (∀ (ri : RayIntersectFn) (o d : Vec3) (objs : List Object)
        (lights : List Vec3) (depth : ℕ) (li : ℝ), depth > 3 →
      cast_ray ri o d objs lights depth li = SKYBOX_COLOR) ∧
    (∀ (ri : RayIntersectFn) (w h : ℕ) (cam : Camera) (objs : List Object)
        (lights : List Vec3) (li : ℝ) (x y : ℕ),
      render ri w h cam objs lights li x y =
        cast_ray ri cam.eye (renderDirection w h cam x y) objs lights 0 li) ∧
    (∀ (ri : RayIntersectFn) (o d : Vec3) (objs : List Object)
        (lights : List Vec3) (li : ℝ),
      cast_ray ri o d objs lights 0 li = castRayBody ri o d objs lights li) := by
  refine ⟨fun ri o d objs lights depth li h => ?_,
    fun _ _ _ _ _ _ _ _ _ => rfl, fun ri o d objs lights li => ?_⟩
  · rw [cast_ray, if_pos h]
  · rw [cast_ray, if_neg (by omega)]

/-- Witness for C4 at a concrete input: depth 4 yields the skybox
constant. -/
theorem cast_ray_depth_guard_witness :
    cast_ray (fun _ _ _ => Intersect.empty) ⟨0, 0, 0⟩ ⟨0, 0, 0⟩ [] [] 4 0 =
      SKYBOX_COLOR :=
  cast_ray_depth_guard_render_depth_zero.1 _ _ _ _ _ 4 0 (by omega)

/-! ### C1: the cos_theta fed to fresnel -/

/-- C1 (code bug): by Rust precedence `cast_ray` computes `cos_theta` as
`-(max(direction·normal, 0))`, the negation of the clamped dot product,
not `max(0, −direction·normal)` as the claim states.  At
`direction·normal = 1` the code value is −1 (negative, refuting "always
non-negative"); at `direction·normal = −1` (a head-on front-face hit) the
code value is 0 while the claim's formula gives 1, and with
`ior = 3/2` the resulting Fresnel factors differ: 1 versus 1/25. -/
theorem castRayCosTheta_precedence_bug :
    castRayCosTheta ⟨0, 0, 1⟩ ⟨0, 0, 1⟩ = -1 ∧
    castRayCosTheta ⟨0, 0, -1⟩ ⟨0, 0, 1⟩ = 0 ∧
    max 0 (-(Vec3.dot ⟨0, 0, -1⟩ ⟨0, 0, 1⟩)) = 1 ∧
    fresnel (castRayCosTheta ⟨0, 0, -1⟩ ⟨0, 0, 1⟩) (3 / 2) = 1 ∧
    fresnel (max 0 (-(Vec3.dot ⟨0, 0, -1⟩ ⟨0, 0, 1⟩))) (3 / 2) = 1 / 25 ∧
    fresnel (castRayCosTheta ⟨0, 0, -1⟩ ⟨0, 0, 1⟩) (3 / 2) ≠
      fresnel (max 0 (-(Vec3.dot ⟨0, 0, -1⟩ ⟨0, 0, 1⟩))) (3 / 2) := by
  have hdot : Vec3.dot ⟨0, 0, -1⟩ ⟨0, 0, 1⟩ = -1 := by
    simp [Vec3.dot]
  have hdot1 : Vec3.dot ⟨0, 0, 1⟩ ⟨0, 0, 1⟩ = 1 := by
    simp [Vec3.dot]
  have hc : castRayCosTheta ⟨0, 0, -1⟩ ⟨0, 0, 1⟩ = 0 := by
    rw [castRayCosTheta, hdot]
    norm_num
  have hs : max 0 (-(Vec3.dot ⟨0, 0, -1⟩ ⟨0, 0, 1⟩)) = 1 := by
    rw [hdot]
    norm_num
  have hf1 : fresnel 0 (3 / 2) = 1 := by
    simp only [fresnel]
    norm_num
  have hf2 : fresnel 1 (3 / 2) = 1 / 25 := by
    simp only [fresnel]
    norm_num
  refine ⟨?_, hc, hs, ?_, ?_, ?_⟩
  · rw [castRayCosTheta, hdot1]; norm_num
  · rw [hc, hf1]
  · rw [hs, hf2]
  · rw [hc, hs, hf1, hf2]; norm_num

/-! ### C5: skybox gradient -/

lemma asU8_fin (v : Fin 256) : asU8 ((v.val : ℝ)) = v := by
  apply Fin.ext
  rw [asU8_natCast_val v.val (by omega)]

lemma interpolate_color_zero (c1 c2 : Color) : interpolate_color c1 c2 0 = c1 := by
  show Color.new _ _ _ = c1
  rw [show ((c1.red.val : ℝ) * (1 - 0) + (c2.red.val : ℝ) * 0) = (c1.red.val : ℝ) by
      ring,
    show ((c1.green.val : ℝ) * (1 - 0) + (c2.green.val : ℝ) * 0) = (c1.green.val : ℝ) by
      ring,
    show ((c1.blue.val : ℝ) * (1 - 0) + (c2.blue.val : ℝ) * 0) = (c1.blue.val : ℝ) by
      ring,
    asU8_fin, asU8_fin, asU8_fin]
  rfl

lemma interpolate_color_one (c1 c2 : Color) : interpolate_color c1 c2 1 = c2 := by
  show Color.new _ _ _ = c2
  rw [show ((c1.red.val : ℝ) * (1 - 1) + (c2.red.val : ℝ) * 1) = (c2.red.val : ℝ) by
      ring,
    show ((c1.green.val : ℝ) * (1 - 1) + (c2.green.val : ℝ) * 1) = (c2.green.val : ℝ) by
      ring,
    show ((c1.blue.val : ℝ) * (1 - 1) + (c2.blue.val : ℝ) * 1) = (c2.blue.val : ℝ) by
      ring,
    asU8_fin, asU8_fin, asU8_fin]
  rfl

/-- Modelled from the spec: the "pure night gradient", blending the night
ground color (50, 50, 50) and night sky color (25, 25, 112) by
`t = 0.5·(direction.y + 1)`. -/
noncomputable def nightGradient (ray_direction : Vec3) : Color :=
  let t := 0.5 * (ray_direction.y + 1)
  Color.new (asU8 ((1 - t) * 50 + t * 25)) (asU8 ((1 - t) * 50 + t * 25))
    (asU8 ((1 - t) * 50 + t * 112))

/-- Modelled from the spec: the "pure day gradient", blending the day
ground color (222, 184, 135) and day sky color (135, 206, 235) by
`t = 0.5·(direction.y + 1)`. -/
noncomputable def dayGradient (ray_direction : Vec3) : Color :=
  let t := 0.5 * (ray_direction.y + 1)
  Color.new (asU8 ((1 - t) * 222 + t * 135)) (asU8 ((1 - t) * 184 + t * 206))
    (asU8 ((1 - t) * 135 + t * 235))

/-- C5: a ray that hits nothing returns `skybox_color` (the sky/ground
blend whose endpoints are interpolated by the ambient intensity), and at
ambient intensity 0 respectively 1 the skybox equals the pure night
respectively day gradient. -/
theorem cast_ray_miss_skybox_gradient :
    (∀ (ri : RayIntersectFn) (origin dir : Vec3) (objs : List Object)
        (lights : List Vec3) (depth : ℕ) (li : ℝ), depth ≤ 3 →
      (∀ o ∈ objs, (objHit ri origin dir o).is_intersecting = false) →
      cast_ray ri origin dir objs lights depth li = skybox_color dir li) ∧
    (∀ dir : Vec3, skybox_color dir 0 = nightGradient dir) ∧
    (∀ dir : Vec3, skybox_color dir 1 = dayGradient dir) := by
  refine ⟨fun ri origin dir objs lights depth li hdepth hmiss => ?_,
    fun dir => ?_, fun dir => ?_⟩
  · rw [cast_ray, if_neg (by omega), castRayBody,
      sceneScan_all_miss ri origin dir objs hmiss Intersect.empty none,
      if_pos (show Intersect.empty.is_intersecting = false from rfl)]
  · simp only [skybox_color, nightGradient, interpolate_color_zero, Color.new]
    norm_num [show ((50 : Fin 256)).val = 50 by decide,
      show ((25 : Fin 256)).val = 25 by decide,
      show ((112 : Fin 256)).val = 112 by decide]
  · simp only [skybox_color, dayGradient, interpolate_color_one, Color.new]
    norm_num [show ((222 : Fin 256)).val = 222 by decide,
      show ((184 : Fin 256)).val = 184 by decide,
      show ((135 : Fin 256)).val = 135 by decide,
      show ((206 : Fin 256)).val = 206 by decide,
      show ((235 : Fin 256)).val = 235 by decide]

/-- Witness for C5 at a concrete input: an empty scene returns the skybox
gradient. -/
theorem cast_ray_miss_skybox_gradient_witness :
    cast_ray (fun _ _ _ => Intersect.empty) ⟨0, 0, 0⟩ ⟨0, 0, 1⟩ [] [] 0 (1 / 2) =
      skybox_color ⟨0, 0, 1⟩ (1 / 2) :=
  cast_ray_miss_skybox_gradient.1 _ _ _ [] [] 0 (1 / 2) (by omega) (by simp)

/-! ### C7: emission added once, independent of the lights -/

lemma lightStep_zero_albedo (ri : RayIntersectFn) (origin dir : Vec3)
    (i : Intersect) (objs : List Object) (acc : Color × Color) (L : Vec3)
    (h0 : i.material.albedo 0 = 0) (h1 : i.material.albedo 1 = 0) :
    lightStep ri origin dir i objs acc L = acc := by
  simp only [lightStep, h0, h1, Color.scale_zero, Color.black_scale,
    Color.add_black]

lemma lightLoop_zero_albedo (ri : RayIntersectFn) (origin dir : Vec3)
    (i : Intersect) (objs : List Object)
    (h0 : i.material.albedo 0 = 0) (h1 : i.material.albedo 1 = 0) :
    ∀ (lights : List Vec3) (acc : Color × Color),
      lights.foldl (lightStep ri origin dir i objs) acc = acc := by
  intro lights
  induction lights with
  | nil => intro acc; rfl
  | cons L rest ih =>
    intro acc
    rw [List.foldl_cons, lightStep_zero_albedo ri origin dir i objs acc L h0 h1]
    exact ih acc

/-- C7: on a hit, `cast_ray` adds the emission term exactly once, outside
the per-light loop; consequently an emissive material with zero diffuse
and specular albedo returns exactly its emission color, for every list of
lights and regardless of shadowing. -/
theorem cast_ray_emission_once :
    (∀ (ri : RayIntersectFn) (origin dir : Vec3) (objs : List Object)
        (lights : List Vec3) (depth : ℕ) (li : ℝ), depth ≤ 3 →
      (sceneScan ri origin dir objs Intersect.empty none).is_intersecting = true →
      cast_ray ri origin dir objs lights depth li =
        (lightLoop ri origin dir (sceneScan ri origin dir objs Intersect.empty none)
          objs lights).1 +
        (lightLoop ri origin dir (sceneScan ri origin dir objs Intersect.empty none)
          objs lights).2 +
        (if (sceneScan ri origin dir objs Intersect.empty none).material.is_emissive
            = true then
          (sceneScan ri origin dir objs Intersect.empty none).material.emission
        else Color.black)) ∧
    (∀ (ri : RayIntersectFn) (origin dir : Vec3) (objs : List Object)
        (lights : List Vec3) (depth : ℕ) (li : ℝ), depth ≤ 3 →
      (sceneScan ri origin dir objs Intersect.empty none).is_intersecting = true →
      (sceneScan ri origin dir objs Intersect.empty none).material.is_emissive
        = true →
      (sceneScan ri origin dir objs Intersect.empty none).material.albedo 0 = 0 →
      (sceneScan ri origin dir objs Intersect.empty none).material.albedo 1 = 0 →
      cast_ray ri origin dir objs lights depth li =
        (sceneScan ri origin dir objs Intersect.empty none).material.emission) := by
  have hbody : ∀ (ri : RayIntersectFn) (origin dir : Vec3) (objs : List Object)
      (lights : List Vec3) (depth : ℕ) (li : ℝ), depth ≤ 3 →
      (sceneScan ri origin dir objs Intersect.empty none).is_intersecting = true →
      cast_ray ri origin dir objs lights depth li =
        castRayShade ri origin dir objs lights
          (sceneScan ri origin dir objs Intersect.empty none) := by
    intro ri origin dir objs lights depth li hdepth hint
    rw [cast_ray, if_neg (by omega), castRayBody, if_neg (by rw [hint]; simp)]
  constructor
  · intro ri origin dir objs lights depth li hdepth hint
    rw [hbody ri origin dir objs lights depth li hdepth hint, castRayShade]
  · intro ri origin dir objs lights depth li hdepth hint hem h0 h1
    rw [hbody ri origin dir objs lights depth li hdepth hint, castRayShade,
      lightLoop, lightLoop_zero_albedo ri origin dir _ objs h0 h1 lights, if_pos hem]
    show Color.black + Color.black + _ = _
    rw [Color.add_black, Color.black_add]

/-- Witness for C7 at a concrete input: a hit on an emissive material with
zero albedo returns the emission color (255, 223, 0) even with a light
present. -/
theorem cast_ray_emission_once_witness :
    cast_ray (fun _ _ _ => ⟨⟨0, 0, 0⟩, ⟨0, 1, 0⟩, 3,
        ⟨Color.black, 0, fun _ => 0, 0, Color.new 255 223 0, true⟩, true⟩)
      ⟨0, 0, 0⟩ ⟨0, 0, 1⟩ [Object.cube ⟨⟨0, 0, 0⟩, 5, Material.black⟩ true]
      [⟨0, 5, 0⟩] 0 (1 / 2) = Color.new 255 223 0 := by
  have hscan : sceneScan (fun _ _ _ => ⟨⟨0, 0, 0⟩, ⟨0, 1, 0⟩, 3,
      ⟨Color.black, 0, fun _ => 0, 0, Color.new 255 223 0, true⟩, true⟩)
      ⟨0, 0, 0⟩ ⟨0, 0, 1⟩ [Object.cube ⟨⟨0, 0, 0⟩, 5, Material.black⟩ true]
      Intersect.empty none =
      ⟨⟨0, 0, 0⟩, ⟨0, 1, 0⟩, 3,
        ⟨Color.black, 0, fun _ => 0, 0, Color.new 255 223 0, true⟩, true⟩ := by
    rw [sceneScan, if_pos ⟨rfl, trivial⟩, sceneScan]
    rfl
  have h := cast_ray_emission_once.2
    (fun _ _ _ => ⟨⟨0, 0, 0⟩, ⟨0, 1, 0⟩, 3,
      ⟨Color.black, 0, fun _ => 0, 0, Color.new 255 223 0, true⟩, true⟩)
    ⟨0, 0, 0⟩ ⟨0, 0, 1⟩ [Object.cube ⟨⟨0, 0, 0⟩, 5, Material.black⟩ true]
    [⟨0, 5, 0⟩] 0 (1 / 2) (by omega)
    (by rw [hscan]) (by rw [hscan]) (by rw [hscan]) (by rw [hscan])
  rw [h, hscan]

/-! ### C10: empty light list -/

/-- C10: with an empty light list, a ray that hits an object returns the
material's emission color when it is emissive and black otherwise: the
per-light accumulators contribute nothing. -/
theorem cast_ray_empty_lights (ri : RayIntersectFn) (origin dir : Vec3)
    (objs : List Object) (depth : ℕ) (li : ℝ) (hdepth : depth ≤ 3)
    (hint : (sceneScan ri origin dir objs Intersect.empty none).is_intersecting
      = true) :
    cast_ray ri origin dir objs [] depth li =
      if (sceneScan ri origin dir objs Intersect.empty none).material.is_emissive
          = true then
        (sceneScan ri origin dir objs Intersect.empty none).material.emission
      else Color.black := by
  rw [cast_ray, if_neg (by omega), castRayBody, if_neg (by rw [hint]; simp),
    castRayShade]
  show (Color.black, Color.black).1 + (Color.black, Color.black).2 + _ = _
  rw [Color.add_black, Color.black_add]

/-- Witness for C10 at a concrete input: a hit on a non-emissive material
with no lights returns black. -/
theorem cast_ray_empty_lights_witness :
    cast_ray (fun _ _ _ => ⟨⟨0, 0, 0⟩, ⟨0, 1, 0⟩, 3, Material.black, true⟩)
      ⟨0, 0, 0⟩ ⟨0, 0, 1⟩ [Object.cube ⟨⟨0, 0, 0⟩, 5, Material.black⟩ false]
      [] 0 (1 / 2) = Color.black := by
  have hscan : sceneScan (fun _ _ _ => ⟨⟨0, 0, 0⟩, ⟨0, 1, 0⟩, 3, Material.black, true⟩)
      ⟨0, 0, 0⟩ ⟨0, 0, 1⟩ [Object.cube ⟨⟨0, 0, 0⟩, 5, Material.black⟩ false]
      Intersect.empty none =
      ⟨⟨0, 0, 0⟩, ⟨0, 1, 0⟩, 3, Material.black, true⟩ := by
    rw [sceneScan, if_pos ⟨rfl, trivial⟩, sceneScan]
    rfl
  have h := cast_ray_empty_lights
    (fun _ _ _ => ⟨⟨0, 0, 0⟩, ⟨0, 1, 0⟩, 3, Material.black, true⟩)
    ⟨0, 0, 0⟩ ⟨0, 0, 1⟩ [Object.cube ⟨⟨0, 0, 0⟩, 5, Material.black⟩ false]
    0 (1 / 2) (by omega) (by rw [hscan])
  rw [h, hscan]
  rfl

/-! ### C9: the is-light flag next to each cube is never read -/

lemma objHit_eq_of_objCube (ri : RayIntersectFn) (origin dir : Vec3)
    {o1 o2 : Object} (h : objCube o1 = objCube o2) :
    objHit ri origin dir o1 = objHit ri origin dir o2 := by
  cases o1 with
  | cube c1 b1 =>
    cases o2 with
    | cube c2 b2 =>
      simp only [objCube] at h
      simp only [objHit, h]

lemma shadowScan_congr (ri : RayIntersectFn) (origin dir : Vec3) (Ld : ℝ) :
    ∀ (l1 l2 : List Object), l1.map objCube = l2.map objCube →
      shadowScan ri origin dir Ld l1 = shadowScan ri origin dir Ld l2 := by
  intro l1
  induction l1 with
  | nil =>
    intro l2 h
    cases l2 with
    | nil => rfl
    | cons b t2 => simp at h
  | cons a t ih =>
    intro l2 h
    cases l2 with
    | nil => simp at h
    | cons b t2 =>
      simp only [List.map_cons, List.cons.injEq] at h
      have hh := objHit_eq_of_objCube ri origin dir h.1
      rw [shadowScan, shadowScan, hh]
      by_cases hc : (objHit ri origin dir b).is_intersecting = true ∧
          (objHit ri origin dir b).distance < Ld
      · rw [if_pos hc, if_pos hc]
      · rw [if_neg hc, if_neg hc]
        exact ih t2 h.2

lemma sceneScan_congr (ri : RayIntersectFn) (origin dir : Vec3) :
    ∀ (l1 l2 : List Object), l1.map objCube = l2.map objCube →
      ∀ (acc : Intersect) (zb : Option ℝ),
        sceneScan ri origin dir l1 acc zb = sceneScan ri origin dir l2 acc zb := by
  intro l1
  induction l1 with
  | nil =>
    intro l2 h acc zb
    cases l2 with
    | nil => rfl
    | cons b t2 => simp at h
  | cons a t ih =>
    intro l2 h acc zb
    cases l2 with
    | nil => simp at h
    | cons b t2 =>
      simp only [List.map_cons, List.cons.injEq] at h
      have hh := objHit_eq_of_objCube ri origin dir h.1
      rw [sceneScan, sceneScan, hh]
      by_cases hc : (objHit ri origin dir b).is_intersecting = true ∧
          ltZbuffer (objHit ri origin dir b).distance zb
      · rw [if_pos hc, if_pos hc]
        exact ih t2 h.2 _ _
      · rw [if_neg hc, if_neg hc]
        exact ih t2 h.2 acc zb

lemma cast_shadow_congr (ri : RayIntersectFn) (i : Intersect) (L : Vec3)
    {l1 l2 : List Object} (h : l1.map objCube = l2.map objCube) :
    cast_shadow ri i L l1 = cast_shadow ri i L l2 := by
  rw [cast_shadow, cast_shadow, shadowScan_congr ri _ _ _ l1 l2 h]

lemma foldl_lightStep_congr (ri : RayIntersectFn) (origin dir : Vec3)
    (i : Intersect) {l1 l2 : List Object} (h : l1.map objCube = l2.map objCube) :
    ∀ (lights : List Vec3) (acc : Color × Color),
      lights.foldl (lightStep ri origin dir i l1) acc =
        lights.foldl (lightStep ri origin dir i l2) acc := by
  intro lights
  induction lights with
  | nil => intro acc; rfl
  | cons L rest ih =>
    intro acc
    have hstep : lightStep ri origin dir i l1 acc L =
        lightStep ri origin dir i l2 acc L := by
      simp only [lightStep, cast_shadow_congr ri i L h]
    rw [List.foldl_cons, List.foldl_cons, hstep]
    exact ih _

/-- C9: two object lists that carry the same cubes but arbitrary is-light
flags are indistinguishable to both `cast_ray` and `cast_shadow` — the
flag is matched with a wildcard and never read. -/
theorem object_flags_irrelevant (ri : RayIntersectFn) (l1 l2 : List Object)
    (h : l1.map objCube = l2.map objCube) :
    (∀ (origin dir : Vec3) (lights : List Vec3) (depth : ℕ) (li : ℝ),
      cast_ray ri origin dir l1 lights depth li =
        cast_ray ri origin dir l2 lights depth li) ∧
    (∀ (i : Intersect) (L : Vec3),
      cast_shadow ri i L l1 = cast_shadow ri i L l2) := by
  constructor
  · intro origin dir lights depth li
    rw [cast_ray, cast_ray]
    by_cases hd : depth > 3
    · rw [if_pos hd, if_pos hd]
    · rw [if_neg hd, if_neg hd, castRayBody, castRayBody,
        sceneScan_congr ri origin dir l1 l2 h Intersect.empty none]
      by_cases hint : (sceneScan ri origin dir l2 Intersect.empty
          none).is_intersecting = false
      · rw [if_pos hint, if_pos hint]
      · rw [if_neg hint, if_neg hint, castRayShade, castRayShade,
          lightLoop, lightLoop, foldl_lightStep_congr ri origin dir _ h lights]
  · intro i L
    exact cast_shadow_congr ri i L h

/-- Witness for C9 at a concrete input: flipping the is-light flag of the
single scene object changes neither the traced color nor the shadow
intensity. -/
theorem object_flags_irrelevant_witness :
    cast_ray (fun _ _ _ => Intersect.empty) ⟨0, 0, 0⟩ ⟨0, 0, 1⟩
        [Object.cube ⟨⟨0, 0, 0⟩, 5, Material.black⟩ true] [] 0 0 =
      cast_ray (fun _ _ _ => Intersect.empty) ⟨0, 0, 0⟩ ⟨0, 0, 1⟩
        [Object.cube ⟨⟨0, 0, 0⟩, 5, Material.black⟩ false] [] 0 0 ∧
    cast_shadow (fun _ _ _ => Intersect.empty)
        ⟨⟨0, 0, 0⟩, ⟨0, 1, 0⟩, 0, Material.black, true⟩ ⟨0, 5, 0⟩
        [Object.cube ⟨⟨0, 0, 0⟩, 5, Material.black⟩ true] =
      cast_shadow (fun _ _ _ => Intersect.empty)
        ⟨⟨0, 0, 0⟩, ⟨0, 1, 0⟩, 0, Material.black, true⟩ ⟨0, 5, 0⟩
        [Object.cube ⟨⟨0, 0, 0⟩, 5, Material.black⟩ false] :=
  ⟨(object_flags_irrelevant (fun _ _ _ => Intersect.empty)
      [Object.cube ⟨⟨0, 0, 0⟩, 5, Material.black⟩ true]
      [Object.cube ⟨⟨0, 0, 0⟩, 5, Material.black⟩ false] rfl).1 _ _ _ _ _,
   (object_flags_irrelevant (fun _ _ _ => Intersect.empty)
      [Object.cube ⟨⟨0, 0, 0⟩, 5, Material.black⟩ true]
      [Object.cube ⟨⟨0, 0, 0⟩, 5, Material.black⟩ false] rfl).2 _ _⟩

end Raytracer
